import Mathlib

/-!
Verification of the Clutter storage engine
(`apps/desktop/src-tauri/src/database.rs`).

The SQLite-backed storage module is shallowly embedded: each table of the
schema created by `init_database` becomes a list of rows, and each Tauri
command becomes a Lean function from the database state to a result
together with the updated state.  Rust panics (the debug-logging string
slices in `save_note` / `save_folder`), `Err` returns, and `Ok` returns are
distinguished by the `Outcome` type.  The `Mutex<Option<Connection>>`
wrapper is embedded as `Option DB`, with `runCmd` playing the role of the
shared `state.0.lock()` / "Database not initialized" preamble of every
command.
-/

namespace Clutter

/-! ### UTF-8 byte arithmetic (Rust string slicing semantics)

`save_note` slices `&note.id[..20]` and (conditionally) `&note.title[..30]`
in its debug `println!`.  Rust byte slicing panics when the end index
exceeds the byte length of the string or falls inside a multi-byte UTF-8
character, so we reconstruct the byte length and the set of valid character
boundaries of a Lean `String` (a list of Unicode scalar values). -/

/-- Number of bytes of the UTF-8 encoding of a character. -/
def charUtf8Size (c : Char) : Nat :=
  if c.toNat < 128 then 1
  else if c.toNat < 2048 then 2
  else if c.toNat < 65536 then 3
  else 4

/-- UTF-8 byte length of a list of characters. -/
def utf8LenAux : List Char → Nat
  | [] => 0
  | c :: cs => charUtf8Size c + utf8LenAux cs

/-- UTF-8 byte length of a string (Rust `str::len`). -/
def utf8Len (s : String) : Nat := utf8LenAux s.data

/-- All valid UTF-8 character-boundary byte offsets of a character list
(including `0` and the total length). -/
def boundariesAux : List Char → List Nat
  | [] => [0]
  | c :: cs => 0 :: (boundariesAux cs).map (· + charUtf8Size c)

/-- All valid character-boundary byte offsets of a string: Rust
`s[..i]` succeeds exactly when `i` is such a boundary. -/
def byteBoundaries (s : String) : List Nat := boundariesAux s.data

/-- Boolean string-prefix test (model of SQL `LIKE 'ui.%'`). -/
def strStartsWith (s p : String) : Bool := p.data.isPrefixOf s.data

/-- Boolean lexicographic comparison on scalar values, used to model SQL
`ORDER BY updated_at DESC` over ISO-8601 text timestamps. -/
def lexLe : List Char → List Char → Bool
  | [], _ => true
  | _ :: _, [] => false
  | a :: as, b :: bs =>
    if a.toNat < b.toNat then true
    else if b.toNat < a.toNat then false
    else lexLe as bs

/-- String comparison used by the `ORDER BY` model. -/
def strLe (a b : String) : Bool := lexLe a.data b.data

/-! ### Data model: the structs of `database.rs` and the table rows of the
schema created by `init_database` -/

/-- The `Note` struct (field for field). -/
structure Note where
  id : String
  title : String
  description : String
  description_visible : Bool
  emoji : Option String
  content : String
  tags : List String
  tags_visible : Bool
  is_favorite : Bool
  folder_id : Option String
  daily_note_date : Option String
  created_at : String
  updated_at : String
  deleted_at : Option String
deriving DecidableEq, Repr

/-- The `Folder` struct (field for field). -/
structure Folder where
  id : String
  name : String
  parent_id : Option String
  description : String
  description_visible : Bool
  color : Option String
  emoji : Option String
  tags : List String
  tags_visible : Bool
  is_favorite : Bool
  is_expanded : Bool
  created_at : String
  updated_at : String
  deleted_at : Option String
deriving DecidableEq, Repr

/-- The `Tag` struct (field for field). -/
structure Tag where
  name : String
  description : String
  description_visible : Bool
  is_favorite : Bool
  color : Option String
  created_at : String
  updated_at : String
  deleted_at : Option String
deriving DecidableEq, Repr

/-- A row of the `notes` table (the `Note` struct minus the `tags`
vector, which lives in `note_tags`). -/
structure NoteRow where
  id : String
  title : String
  description : String
  description_visible : Bool
  emoji : Option String
  content : String
  tags_visible : Bool
  is_favorite : Bool
  folder_id : Option String
  daily_note_date : Option String
  created_at : String
  updated_at : String
  deleted_at : Option String
deriving DecidableEq, Repr

/-- A row of the `folders` table. -/
structure FolderRow where
  id : String
  name : String
  parent_id : Option String
  description : String
  description_visible : Bool
  color : Option String
  emoji : Option String
  tags_visible : Bool
  is_favorite : Bool
  is_expanded : Bool
  created_at : String
  updated_at : String
  deleted_at : Option String
deriving DecidableEq, Repr

/-- A row of the `tags` table. -/
structure TagRow where
  name : String
  description : String
  description_visible : Bool
  is_favorite : Bool
  color : Option String
  created_at : String
  updated_at : String
  deleted_at : Option String
deriving DecidableEq, Repr

/-- A row of the `notes_fts` FTS5 virtual table. -/
structure FtsRow where
  note_id : String
  title : String
  content : String
deriving DecidableEq, Repr

/-- A row of the `settings` table. -/
structure SettingRow where
  key : String
  value : String
  updated_at : String
deriving DecidableEq, Repr

/-- The whole database state: one list per table, in rowid order.
`note_tags` / `folder_tags` rows are `(note_id, tag_name)` /
`(folder_id, tag_name)` pairs. -/
structure DB where
  notes : List NoteRow
  folders : List FolderRow
  tags : List TagRow
  note_tags : List (String × String)
  folder_tags : List (String × String)
  settings : List SettingRow
  fts : List FtsRow
deriving DecidableEq, Repr

/-- The empty database produced by `init_database` on a fresh path. -/
def DB.empty : DB := ⟨[], [], [], [], [], [], []⟩

/-- Structured rendering of the `String` error channel of the commands. -/
inductive DbError where
  /-- `"Database not initialized"`. -/
  | notInitialized
  /-- The boot-state guard rejection of `save_note` (carries the incoming
  title and the stored content length interpolated into the message). -/
  | guardedOverwrite (title : String) (existingLen : Nat)
  /-- `QueryReturnedNoRows` from `query_row` on a missing id. -/
  | notFound (id : String)
  /-- A SQLite primary-key / foreign-key constraint violation. -/
  | constraintViolation
deriving DecidableEq, Repr

/-- Result of running a command body: a Rust panic, an `Err`, or an `Ok`. -/
inductive Outcome (α : Type) where
  | panic
  | err (e : DbError)
  | ok (a : α)
deriving DecidableEq, Repr

/-! ### Row lookups (SQL `WHERE` on a primary key) -/

/-- `SELECT ... FROM notes WHERE id = ?1` (first matching row). -/
def findNote (db : DB) (id : String) : Option NoteRow :=
  db.notes.find? (fun r => decide (r.id = id))

/-- `SELECT ... FROM folders WHERE id = ?1`. -/
def findFolder (db : DB) (id : String) : Option FolderRow :=
  db.folders.find? (fun r => decide (r.id = id))

/-- `SELECT ... FROM tags WHERE name = ?1`. -/
def findTagRow (tags : List TagRow) (name : String) : Option TagRow :=
  tags.find? (fun r => decide (r.name = name))

/-- `SELECT value FROM settings WHERE key = ?1`. -/
def findSetting (db : DB) (key : String) : Option SettingRow :=
  db.settings.find? (fun r => decide (r.key = key))

/-- `SELECT tag_name FROM note_tags WHERE note_id = ?1`, in table order. -/
def tagsFor (db : DB) (id : String) : List String :=
  (db.note_tags.filter (fun p => decide (p.1 = id))).map (·.2)

/-- Reassemble a `Note` from its row and its association rows (the shape
returned by `load_note` / `load_all_notes` / `search_notes`). -/
def noteOfRow (r : NoteRow) (tags : List String) : Note :=
  ⟨r.id, r.title, r.description, r.description_visible, r.emoji, r.content,
   tags, r.tags_visible, r.is_favorite, r.folder_id, r.daily_note_date,
   r.created_at, r.updated_at, r.deleted_at⟩

/-- The row written for a `Note` on the no-conflict path of the upsert. -/
def rowOfNote (n : Note) : NoteRow :=
  ⟨n.id, n.title, n.description, n.description_visible, n.emoji, n.content,
   n.tags_visible, n.is_favorite, n.folder_id, n.daily_note_date,
   n.created_at, n.updated_at, n.deleted_at⟩

/-- The `ON CONFLICT(id) DO UPDATE SET ...` clause of `save_note`: every
column except `id` and `created_at` is overwritten from `excluded`. -/
def conflictUpdateNote (old : NoteRow) (n : Note) : NoteRow :=
  { rowOfNote n with id := old.id, created_at := old.created_at }

/-! ### `save_note` -/

/-- The debug `println!` of `save_note` slices `&note.id[..20]`
unconditionally and `&note.title[..30]` when the title is longer than 30
bytes; either slice panics when its end index is not a UTF-8 character
boundary of the string (in particular when the id is shorter than
20 bytes). -/
def save_note_panics (note : Note) : Prop :=
  20 ∉ byteBoundaries note.id ∨
    (30 < utf8Len note.title ∧ 30 ∉ byteBoundaries note.title)

instance (note : Note) : Decidable (save_note_panics note) := by
  unfold save_note_panics; exact inferInstance

/-- `let is_pure_boot_state = note.content.is_empty() || note.content ==
r#""""# || note.content == "{}";` -/
def is_pure_boot_state (content : String) : Bool :=
  content == "" || content == "\"\"" || content == "\x7b\x7d"

/-- The implicit tag upsert of `save_note` / `save_folder`:
`INSERT INTO tags (name, description, description_visible, is_favorite,
color, created_at, updated_at) VALUES (?1, '', 1, 0, NULL, ?2, ?2)
ON CONFLICT(name) DO NOTHING` — the row created when the name is absent
(`deleted_at` is not in the column list, hence `NULL`). -/
def defaultTagRow (name ts : String) : TagRow :=
  ⟨name, "", true, false, none, ts, ts, none⟩

/-- One `INSERT ... ON CONFLICT(name) DO NOTHING` statement. -/
def upsertTagDefault (ts : String) (acc : List TagRow) (n : String) :
    List TagRow :=
  if ∃ r ∈ acc, r.name = n then acc else acc ++ [defaultTagRow n ts]

/-- The `for tag in &note.tags` loop of implicit tag upserts. -/
def upsertTagsDefault (ts : String) (names : List String)
    (tags : List TagRow) : List TagRow :=
  names.foldl (upsertTagDefault ts) tags

/-- The `for tag in &note.tags { INSERT INTO note_tags ... }` loop.
Each insert is checked against the `(note_id, tag_name)` primary key and
the two foreign keys of `note_tags`; the first violating insert aborts
the loop, leaving the rows inserted so far in place (there is no wrapping
transaction).  Returns the final association table and whether every
insert succeeded. -/
def insertPairs (id : String) (noteIds tagNames : List String) :
    List String → List (String × String) → List (String × String) × Bool
  | [], acc => (acc, true)
  | t :: rest, acc =>
    if (id, t) ∈ acc ∨ id ∉ noteIds ∨ t ∉ tagNames then (acc, false)
    else insertPairs id noteIds tagNames rest (acc ++ [(id, t)])

/-- Effect of the note upsert statement on the `notes` table: on
conflict the matching row is updated in place, otherwise the row is
appended. -/
def upsertNotesTable (note : Note) (db : DB) : List NoteRow :=
  match findNote db note.id with
  | some _ =>
    db.notes.map (fun r =>
      if r.id = note.id then conflictUpdateNote r note else r)
  | none => db.notes ++ [rowOfNote note]

/-- Effect of the FTS triggers fired by the note upsert: the
`AFTER UPDATE` trigger refreshes title/content on conflict, the
`AFTER INSERT` trigger adds a fresh index row otherwise. -/
def upsertFtsTable (note : Note) (db : DB) : List FtsRow :=
  match findNote db note.id with
  | some _ =>
    db.fts.map (fun f =>
      if f.note_id = note.id then
        { f with title := note.title, content := note.content }
      else f)
  | none => db.fts ++ [⟨note.id, note.title, note.content⟩]

/-- The association-insert loop of `save_note`, run against the
post-upsert `notes`/`tags` tables and the association table with the
old rows for the id deleted. -/
def noteTagsIns (note : Note) (db : DB) :
    List (String × String) × Bool :=
  insertPairs note.id ((upsertNotesTable note db).map (·.id))
    ((upsertTagsDefault note.updated_at note.tags db.tags).map (·.name))
    note.tags
    (db.note_tags.filter (fun p => decide (p.1 ≠ note.id)))

/-- Everything `save_note` does after the boot-state guard: upsert the
note row (firing the FTS insert/update trigger), upsert the tags, delete
the old `note_tags` rows for the id and insert the new tag set. -/
def save_note_write (note : Note) (db : DB) : Outcome String × DB :=
  let db' : DB :=
    { db with notes := upsertNotesTable note db,
              fts := upsertFtsTable note db,
              tags := upsertTagsDefault note.updated_at note.tags db.tags,
              note_tags := (noteTagsIns note db).1 }
  if (noteTagsIns note db).2 then (.ok ("Note saved: " ++ note.id), db')
  else (.err .constraintViolation, db')

/-- `save_note`: debug-log slicing (which can panic), then the boot-state
guard (`SELECT LENGTH(content) FROM notes WHERE id = ?1`, blocking when
the stored length exceeds 200), then the write sequence. -/
def save_note (note : Note) (db : DB) : Outcome String × DB :=
  if save_note_panics note then (.panic, db)
  else if is_pure_boot_state note.content then
    match findNote db note.id with
    | some r =>
      if 200 < r.content.length then
        (.err (.guardedOverwrite note.title r.content.length), db)
      else save_note_write note db
    | none => save_note_write note db
  else save_note_write note db

/-! ### `load_note`, `load_all_notes`, `search_notes` -/

/-- `load_note`: `query_row` on the id (a missing row surfaces the
`QueryReturnedNoRows` error), then the tag query. -/
def load_note (note_id : String) (db : DB) : Outcome Note × DB :=
  match findNote db note_id with
  | none => (.err (.notFound note_id), db)
  | some r => (.ok (noteOfRow r (tagsFor db note_id)), db)

/-- `ORDER BY updated_at DESC` over note rows. -/
def notesByUpdatedDesc (rows : List NoteRow) : List NoteRow :=
  rows.insertionSort (fun a b => strLe b.updated_at a.updated_at = true)

/-- `load_all_notes`: every row (soft-deleted included) ordered by
`updated_at DESC`, tags batch-attached per note id. -/
def load_all_notes (db : DB) : Outcome (List Note) × DB :=
  (.ok ((notesByUpdatedDesc db.notes).map
    (fun r => noteOfRow r (tagsFor db r.id))), db)

/-- The `JOIN notes_fts ON notes.id = notes_fts.note_id`. -/
def joinFts (db : DB) : List (NoteRow × FtsRow) :=
  db.notes.flatMap (fun n =>
    (db.fts.filter (fun f => decide (f.note_id = n.id))).map
      (fun f => (n, f)))

/-- The matched, ranked, limited rows of `search_notes`:
`WHERE notes_fts MATCH ?1 AND notes.deleted_at IS NULL ORDER BY rank
LIMIT 50`.  FTS5 tokenization (`MATCH`) and BM25 relevance (`rank`)
are SQLite internals, so they enter the model as parameters: `matchP`
decides whether an index entry matches the query and `rank` assigns the
relevance value that `ORDER BY rank` sorts ascending. -/
def searchRows (matchP : String → FtsRow → Bool) (rank : FtsRow → Int)
    (query : String) (db : DB) : List (NoteRow × FtsRow) :=
  (((joinFts db).filter
      (fun p => matchP query p.2 && p.1.deleted_at.isNone)).insertionSort
    (fun a b => rank a.2 ≤ rank b.2)).take 50

/-- The note list returned by `search_notes` (tags batch-loaded for the
matched ids). -/
def search_notes_run (matchP : String → FtsRow → Bool)
    (rank : FtsRow → Int) (query : String) (db : DB) : List Note :=
  (searchRows matchP rank query db).map
    (fun p => noteOfRow p.1 (tagsFor db p.1.id))

/-- `search_notes` as a command body. -/
def search_notes (matchP : String → FtsRow → Bool) (rank : FtsRow → Int)
    (query : String) (db : DB) : Outcome (List Note) × DB :=
  (.ok (search_notes_run matchP rank query db), db)

/-! ### `save_folder`, `load_all_folders` -/

/-- `save_folder` logs `&folder.id[..20.min(folder.id.len())]`: the end
index is always in range, but still panics when the id is at least 20
bytes long and byte 20 falls inside a multi-byte character. -/
def save_folder_panics (folder : Folder) : Prop :=
  20 ≤ utf8Len folder.id ∧ 20 ∉ byteBoundaries folder.id

instance (folder : Folder) : Decidable (save_folder_panics folder) := by
  unfold save_folder_panics; exact inferInstance

/-- The row written for a `Folder` on the no-conflict path. -/
def rowOfFolder (f : Folder) : FolderRow :=
  ⟨f.id, f.name, f.parent_id, f.description, f.description_visible,
   f.color, f.emoji, f.tags_visible, f.is_favorite, f.is_expanded,
   f.created_at, f.updated_at, f.deleted_at⟩

/-- The `ON CONFLICT(id) DO UPDATE SET ...` clause of `save_folder`
(everything except `id` and `created_at`). -/
def conflictUpdateFolder (old : FolderRow) (f : Folder) : FolderRow :=
  { rowOfFolder f with id := old.id, created_at := old.created_at }

/-- The `FOREIGN KEY (parent_id) REFERENCES folders(id)` check on the
folder upsert: a non-null parent must exist in the (post-statement)
folders table. -/
def parentOk (folders : List FolderRow) : Option String → Prop
  | none => True
  | some p => ∃ r ∈ folders, r.id = p

instance (folders : List FolderRow) (pid : Option String) :
    Decidable (parentOk folders pid) := by
  unfold parentOk; cases pid <;> exact inferInstance

/-- Effect of the folder upsert statement on the `folders` table. -/
def upsertFoldersTable (folder : Folder) (db : DB) : List FolderRow :=
  match findFolder db folder.id with
  | some _ =>
    db.folders.map (fun r =>
      if r.id = folder.id then conflictUpdateFolder r folder else r)
  | none => db.folders ++ [rowOfFolder folder]

/-- The association-insert loop of `save_folder`. -/
def folderTagsIns (folder : Folder) (db : DB) :
    List (String × String) × Bool :=
  insertPairs folder.id ((upsertFoldersTable folder db).map (·.id))
    ((upsertTagsDefault folder.updated_at folder.tags db.tags).map
      (·.name))
    folder.tags
    (db.folder_tags.filter (fun p => decide (p.1 ≠ folder.id)))

/-- `save_folder`: debug-log slicing, folder upsert (whose
`FOREIGN KEY (parent_id) REFERENCES folders(id)` is enforced, failing the
statement on a dangling parent), implicit tag upserts, and full
replacement of the `folder_tags` rows for the id. -/
def save_folder (folder : Folder) (db : DB) : Outcome String × DB :=
  if save_folder_panics folder then (.panic, db)
  else if parentOk (upsertFoldersTable folder db) folder.parent_id then
    let db' : DB :=
      { db with folders := upsertFoldersTable folder db,
                tags := upsertTagsDefault folder.updated_at folder.tags
                  db.tags,
                folder_tags := (folderTagsIns folder db).1 }
    if (folderTagsIns folder db).2 then
      (.ok ("Folder saved: " ++ folder.id), db')
    else (.err .constraintViolation, db')
  else (.err .constraintViolation, db)

/-- `load_all_folders`: every folder row (no ordering clause), tags
batch-attached per folder id. -/
def load_all_folders (db : DB) : Outcome (List Folder) × DB :=
  (.ok (db.folders.map (fun r =>
    ⟨r.id, r.name, r.parent_id, r.description, r.description_visible,
     r.color, r.emoji,
     (db.folder_tags.filter (fun p => decide (p.1 = r.id))).map (·.2),
     r.tags_visible, r.is_favorite, r.is_expanded,
     r.created_at, r.updated_at, r.deleted_at⟩)), db)

/-! ### Tag commands -/

/-- `save_tag`: upsert by name; `ON CONFLICT(name) DO UPDATE SET` every
column except `name` and `created_at`. -/
def save_tag (tag : Tag) (db : DB) : Outcome String × DB :=
  let tags' := match findTagRow db.tags tag.name with
    | some _ =>
      db.tags.map (fun r =>
        if r.name = tag.name then
          { r with description := tag.description,
                   description_visible := tag.description_visible,
                   is_favorite := tag.is_favorite,
                   color := tag.color,
                   updated_at := tag.updated_at,
                   deleted_at := tag.deleted_at }
        else r)
    | none =>
      db.tags ++ [⟨tag.name, tag.description, tag.description_visible,
                   tag.is_favorite, tag.color, tag.created_at,
                   tag.updated_at, tag.deleted_at⟩]
  (.ok ("Tag saved: " ++ tag.name), { db with tags := tags' })

/-- `load_all_tags`: every tag row, soft-deleted included. -/
def load_all_tags (db : DB) : Outcome (List Tag) × DB :=
  (.ok (db.tags.map (fun r =>
    ⟨r.name, r.description, r.description_visible, r.is_favorite,
     r.color, r.created_at, r.updated_at, r.deleted_at⟩)), db)

/-- `delete_tag`: `DELETE FROM tags WHERE name = ?1`; both junction
tables cascade via `ON DELETE CASCADE`. -/
def delete_tag (tag_name : String) (db : DB) : Outcome String × DB :=
  (.ok ("Tag deleted: " ++ tag_name),
   { db with tags := db.tags.filter (fun r => decide (r.name ≠ tag_name)),
             note_tags :=
               db.note_tags.filter (fun p => decide (p.2 ≠ tag_name)),
             folder_tags :=
               db.folder_tags.filter (fun p => decide (p.2 ≠ tag_name)) })

/-! ### Permanent deletes, maintenance, UI state -/

/-- `delete_note_permanently`: `DELETE FROM notes WHERE id = ?1`;
`note_tags` cascades and the FTS delete trigger removes the index row.
A missing id deletes zero rows and still succeeds. -/
def delete_note_permanently (note_id : String) (db : DB) :
    Outcome String × DB :=
  (.ok ("Note permanently deleted: " ++ note_id),
   { db with notes := db.notes.filter (fun r => decide (r.id ≠ note_id)),
             note_tags :=
               db.note_tags.filter (fun p => decide (p.1 ≠ note_id)),
             fts := db.fts.filter (fun f => decide (f.note_id ≠ note_id)) })

/-- `delete_folder_permanently`: `DELETE FROM folders WHERE id = ?1`;
`folder_tags` cascades, but the self-referential `parent_id` foreign key
has no cascade clause, so deleting a folder that is still the parent of
another folder fails the statement. -/
def delete_folder_permanently (folder_id : String) (db : DB) :
    Outcome String × DB :=
  if ∃ f ∈ db.folders, f.parent_id = some folder_id ∧ f.id ≠ folder_id then
    (.err .constraintViolation, db)
  else
    (.ok ("Folder permanently deleted: " ++ folder_id),
     { db with
         folders := db.folders.filter (fun r => decide (r.id ≠ folder_id)),
         folder_tags :=
           db.folder_tags.filter (fun p => decide (p.1 ≠ folder_id)) })

/-- `cleanup_database`: a best-effort passive WAL checkpoint; never
changes the logical state, never fails. -/
def cleanup_database (db : DB) : Outcome String × DB :=
  (.ok "Database cleanup complete", db)

/-- `save_ui_state`: upsert of `(key, value)` with a freshly generated
timestamp; the clock (`chrono::Utc::now`) enters the model as the `now`
parameter. -/
def save_ui_state (now key value : String) (db : DB) :
    Outcome String × DB :=
  let settings' := match findSetting db key with
    | some _ =>
      db.settings.map (fun s =>
        if s.key = key then { s with value := value, updated_at := now }
        else s)
    | none => db.settings ++ [⟨key, value, now⟩]
  (.ok ("UI state saved: " ++ key), { db with settings := settings' })

/-- `load_ui_state`: `query_row(...).optional()` — a missing key yields
`Ok(None)`, a present key `Ok(Some(value))`. -/
def load_ui_state (key : String) (db : DB) :
    Outcome (Option String) × DB :=
  (.ok ((findSetting db key).map (·.value)), db)

/-- `load_all_ui_state`: every settings row whose key matches
`LIKE 'ui.%'`, as a key/value mapping. -/
def load_all_ui_state (db : DB) : Outcome (List (String × String)) × DB :=
  (.ok ((db.settings.filter (fun s => strStartsWith s.key "ui.")).map
    (fun s => (s.key, s.value))), db)

/-! ### The command layer over `Mutex<Option<Connection>>`

Every command starts with `state.0.lock()` and
`conn_guard.as_ref().ok_or("Database not initialized")?`; `runCmd` is
that shared preamble. -/

/-- Run a command body against the optional connection: absent state
fails immediately with the not-initialized error and touches nothing. -/
def runCmd {α : Type} (f : DB → Outcome α × DB) :
    Option DB → Outcome α × Option DB
  | none => (.err .notInitialized, none)
  | some db => let r := f db; (r.1, some r.2)

/-- The `save_note` Tauri command. -/
def save_note_cmd (note : Note) : Option DB → Outcome String × Option DB :=
  runCmd (save_note note)

/-- The `load_note` Tauri command. -/
def load_note_cmd (note_id : String) :
    Option DB → Outcome Note × Option DB :=
  runCmd (load_note note_id)

/-- The `load_all_notes` Tauri command. -/
def load_all_notes_cmd : Option DB → Outcome (List Note) × Option DB :=
  runCmd load_all_notes

/-- The `search_notes` Tauri command. -/
def search_notes_cmd (matchP : String → FtsRow → Bool)
    (rank : FtsRow → Int) (query : String) :
    Option DB → Outcome (List Note) × Option DB :=
  runCmd (search_notes matchP rank query)

/-- The `save_folder` Tauri command. -/
def save_folder_cmd (folder : Folder) :
    Option DB → Outcome String × Option DB :=
  runCmd (save_folder folder)

/-- The `load_all_folders` Tauri command. -/
def load_all_folders_cmd : Option DB → Outcome (List Folder) × Option DB :=
  runCmd load_all_folders

/-- The `save_tag` Tauri command. -/
def save_tag_cmd (tag : Tag) : Option DB → Outcome String × Option DB :=
  runCmd (save_tag tag)

/-- The `load_all_tags` Tauri command. -/
def load_all_tags_cmd : Option DB → Outcome (List Tag) × Option DB :=
  runCmd load_all_tags

/-- The `delete_tag` Tauri command. -/
def delete_tag_cmd (tag_name : String) :
    Option DB → Outcome String × Option DB :=
  runCmd (delete_tag tag_name)

/-- The `delete_note_permanently` Tauri command. -/
def delete_note_permanently_cmd (note_id : String) :
    Option DB → Outcome String × Option DB :=
  runCmd (delete_note_permanently note_id)

/-- The `delete_folder_permanently` Tauri command. -/
def delete_folder_permanently_cmd (folder_id : String) :
    Option DB → Outcome String × Option DB :=
  runCmd (delete_folder_permanently folder_id)

/-- The `cleanup_database` Tauri command. -/
def cleanup_database_cmd : Option DB → Outcome String × Option DB :=
  runCmd cleanup_database

/-- The `save_ui_state` Tauri command. -/
def save_ui_state_cmd (now key value : String) :
    Option DB → Outcome String × Option DB :=
  runCmd (save_ui_state now key value)

/-- The `load_ui_state` Tauri command. -/
def load_ui_state_cmd (key : String) :
    Option DB → Outcome (Option String) × Option DB :=
  runCmd (load_ui_state key)

/-- The `load_all_ui_state` Tauri command. -/
def load_all_ui_state_cmd :
    Option DB → Outcome (List (String × String)) × Option DB :=
  runCmd load_all_ui_state

/-- The row that the note upsert leaves under the note's id. -/
def upsertedNoteRow (note : Note) (db : DB) : NoteRow :=
  match findNote db note.id with
  | some old => conflictUpdateNote old note
  | none => rowOfNote note

/-! ### Concrete fixtures for witnesses and counterexamples -/

/-- A note with the fields that do not matter for a given scenario held
fixed. -/
def mkNote (id title content : String) (tags : List String)
    (created updated : String) : Note :=
  { id := id, title := title, description := "",
    description_visible := true, emoji := none, content := content,
    tags := tags, tags_visible := true, is_favorite := false,
    folder_id := none, daily_note_date := none, created_at := created,
    updated_at := updated, deleted_at := none }

/-- A 20-byte ASCII id, long enough for the debug-log slice. -/
def id20 : String := "aaaaaaaaaaaaaaaaaaaa"

/-- A stored content of 201 characters, above the guard threshold. -/
def longContent : String := String.mk (List.replicate 201 'x')

/-- A note whose id is 2 bytes long: `&note.id[..20]` panics on it. -/
def shortIdNote : Note := mkNote "n1" "T" "" [] "c1" "u1"

/-- A database holding a long note row under the short id `"n1"`. -/
def dbLongShortId : DB :=
  { DB.empty with
      notes := [rowOfNote (mkNote "n1" "T" longContent [] "c0" "u0")] }

/-- A boot-state-content note with a sliceable 20-byte id. -/
def bootNote : Note := mkNote id20 "T" "" [] "c1" "u1"

/-- A database holding a long note row under `id20`. -/
def dbLong : DB :=
  { DB.empty with
      notes := [rowOfNote (mkNote id20 "T" longContent [] "c0" "u0")] }

/-- A real-content note resaved over an older row with a different
`created_at`. -/
def resaveNote : Note := mkNote id20 "T" "hello" [] "2021" "2021"

/-- The older stored row for `resaveNote`'s id (`created_at = "2020"`). -/
def dbOld : DB :=
  { DB.empty with
      notes := [rowOfNote (mkNote id20 "T" "old" [] "2020" "2020")] }

/-- A fresh note carrying two tags, for the save/load round trip. -/
def roundTripNote : Note := mkNote id20 "T" "hello" ["x", "y"] "c1" "u1"

/-- First save of the retag scenario that the guard then blocks: long
content, tags `{a, b}`. -/
def retagBlockedA : Note := mkNote id20 "T" longContent ["a", "b"] "c" "u1"

/-- Second save of the blocked retag scenario: boot-state content, tags
`{b, c}`. -/
def retagBlockedB : Note := mkNote id20 "T" "" ["b", "c"] "c" "u2"

/-- First save of the accepted retag scenario: tags `{a, b}`. -/
def retagOkA : Note := mkNote id20 "T" "hello" ["a", "b"] "c" "u1"

/-- Second save of the accepted retag scenario: tags `{b, c}`. -/
def retagOkB : Note := mkNote id20 "T" "world" ["b", "c"] "c" "u2"

/-- State after saving `roundTripNote` into the empty database. -/
def dbRoundTrip : DB := (save_note roundTripNote DB.empty).2

/-- State after saving `resaveNote` over `dbOld`. -/
def dbResaved : DB := (save_note resaveNote dbOld).2

/-- State after the first accepted retag save. -/
def dbRetag1 : DB := (save_note retagOkA DB.empty).2

/-- State after the second accepted retag save. -/
def dbRetag2 : DB := (save_note retagOkB dbRetag1).2

/-- A tag row with explicit non-default metadata. -/
def richTag : TagRow :=
  ⟨"x", "spelled out", false, true, some "red", "c0", "u0", none⟩

/-- A database holding `richTag`. -/
def dbRichTag : DB := { DB.empty with tags := [richTag] }

/-- A note whose tag list mentions `richTag` and a new name. -/
def taggedNote : Note := mkNote id20 "T" "hello" ["x", "y"] "c1" "u9"

/-- A folder whose tag list mentions `richTag`. -/
def taggedFolder : Folder :=
  { id := id20, name := "F", parent_id := none, description := "",
    description_visible := true, color := none, emoji := none,
    tags := ["x"], tags_visible := true, is_favorite := false,
    is_expanded := true, created_at := "c1", updated_at := "u9",
    deleted_at := none }

/-- A database with one live note row and its FTS entry, for the search
witness. -/
def dbSearch : DB :=
  { DB.empty with
      notes := [rowOfNote (mkNote id20 "T" "hello world" [] "c0" "u0")],
      fts := [⟨id20, "T", "hello world"⟩] }

/-- A database with one UI setting. -/
def dbUi : DB :=
  { DB.empty with settings := [⟨"ui.theme", "dark", "t0"⟩] }

/-! ### Generic list lemmas -/

theorem find?_append_some {α : Type} {p : α → Bool} {l₁ l₂ : List α}
    {a : α} (h : l₁.find? p = some a) : (l₁ ++ l₂).find? p = some a := by
  rw [List.find?_append, h]; rfl

theorem find?_append_none {α : Type} {p : α → Bool} {l₁ l₂ : List α}
    (h : l₁.find? p = none) : (l₁ ++ l₂).find? p = l₂.find? p := by
  rw [List.find?_append, h]; rfl

/-- `find?` over a `map` whose function does not change the tested
predicate. -/
theorem find?_map_pres {α : Type} (f : α → α) (p : α → Bool)
    (hf : ∀ a, p (f a) = p a) (l : List α) :
    (l.map f).find? p = (l.find? p).map f := by
  induction l with
  | nil => rfl
  | cons a l ih =>
    by_cases hp : p a = true
    · simp [List.find?_cons, hf, hp]
    · simp only [Bool.not_eq_true] at hp
      simp [List.find?_cons, hf, hp, ih]

/-- Every byte boundary is at most the byte length of the string. -/
theorem mem_boundariesAux_le {l : List Char} {n : Nat}
    (h : n ∈ boundariesAux l) : n ≤ utf8LenAux l := by
  induction l generalizing n with
  | nil =>
    simp only [boundariesAux, List.mem_singleton] at h
    simp [h, utf8LenAux]
  | cons c cs ih =>
    simp only [boundariesAux, List.mem_cons, List.mem_map] at h
    rcases h with h | ⟨m, hm, rfl⟩
    · simp [h, utf8LenAux]
    · have := ih hm
      simp only [utf8LenAux]; omega

/-! ### Lemmas about the implicit tag upsert -/

/-- A tag row present before the implicit upserts is present and
unchanged afterwards. -/
theorem upsertTagsDefault_preserves {ts : String} {names : List String}
    {tags : List TagRow} {n : String} {old : TagRow}
    (h : findTagRow tags n = some old) :
    findTagRow (upsertTagsDefault ts names tags) n = some old := by
  induction names generalizing tags with
  | nil => exact h
  | cons m rest ih =>
    apply ih
    unfold upsertTagDefault
    split
    · exact h
    · exact find?_append_some h

/-- Unfolding equation: the implicit upsert loop processes tag names in
order. -/
theorem upsertTagsDefault_cons {ts m : String} {rest : List String}
    {tags : List TagRow} :
    upsertTagsDefault ts (m :: rest) tags =
      upsertTagsDefault ts rest (upsertTagDefault ts tags m) := rfl

/-- A tag name absent before the implicit upserts is, afterwards, either
still absent or present with exactly the default metadata row. -/
theorem upsertTagsDefault_absent {ts : String} {names : List String}
    {tags : List TagRow} {n : String}
    (h : findTagRow tags n = none) :
    findTagRow (upsertTagsDefault ts names tags) n = none ∨
      findTagRow (upsertTagsDefault ts names tags) n =
        some (defaultTagRow n ts) := by
  induction names generalizing tags with
  | nil => exact .inl h
  | cons m rest ih =>
    rw [upsertTagsDefault_cons]
    by_cases hex : ∃ r ∈ tags, r.name = m
    · rw [upsertTagDefault, if_pos hex]; exact ih h
    · rw [upsertTagDefault, if_neg hex]
      rcases eq_or_ne m n with rfl | hmn
      · refine .inr (upsertTagsDefault_preserves ?_)
        unfold findTagRow at h ⊢
        rw [find?_append_none h]
        simp [List.find?, defaultTagRow]
      · apply ih
        unfold findTagRow at h ⊢
        rw [find?_append_none h]
        simp [List.find?, defaultTagRow, hmn]

/-- Names already in the tags table survive the implicit upserts. -/
theorem upsertTagDefault_name_mono {ts : String} {tags : List TagRow}
    {m n : String} (h : n ∈ tags.map (·.name)) :
    n ∈ (upsertTagDefault ts tags m).map (·.name) := by
  unfold upsertTagDefault
  split
  · exact h
  · simp only [List.map_append, List.mem_append]; exact .inl h

theorem upsertTagsDefault_name_mono {ts : String} {names : List String}
    {tags : List TagRow} {n : String} (h : n ∈ tags.map (·.name)) :
    n ∈ (upsertTagsDefault ts names tags).map (·.name) := by
  induction names generalizing tags with
  | nil => exact h
  | cons m rest ih => exact ih (upsertTagDefault_name_mono h)

/-- Every upserted name is in the tags table afterwards. -/
theorem upsertTagsDefault_name_mem {ts : String} {names : List String}
    {tags : List TagRow} {n : String} (h : n ∈ names) :
    n ∈ (upsertTagsDefault ts names tags).map (·.name) := by
  induction names generalizing tags with
  | nil => cases h
  | cons m rest ih =>
    rw [upsertTagsDefault_cons]
    rcases List.mem_cons.1 h with rfl | hrest
    · apply upsertTagsDefault_name_mono
      by_cases hex : ∃ r ∈ tags, r.name = n
      · rw [upsertTagDefault, if_pos hex]
        obtain ⟨r, hr, hrn⟩ := hex
        exact List.mem_map.2 ⟨r, hr, hrn⟩
      · rw [upsertTagDefault, if_neg hex]
        simp [defaultTagRow]
    · exact ih hrest

/-! ### Lemmas about the association-insert loop -/

/-- When every insert succeeds, the loop appends exactly the
`(id, tag)` pairs, in order. -/
theorem insertPairs_ok {id : String} {noteIds tagNames ts : List String}
    {acc acc' : List (String × String)}
    (h : insertPairs id noteIds tagNames ts acc = (acc', true)) :
    acc' = acc ++ ts.map (fun t => (id, t)) := by
  induction ts generalizing acc with
  | nil =>
    simp only [insertPairs, Prod.mk.injEq] at h
    simp [h.1]
  | cons t rest ih =>
    rw [insertPairs] at h
    split at h
    · cases h
    · have := ih h
      simp [this]

/-- The loop succeeds when the note id satisfies its foreign key, every
tag name satisfies its foreign key, no inserted pair pre-exists, and the
tag list has no duplicates. -/
theorem insertPairs_succeeds {id : String}
    {noteIds tagNames ts : List String}
    {acc : List (String × String)}
    (hid : id ∈ noteIds) (htags : ∀ t ∈ ts, t ∈ tagNames)
    (hnodup : ts.Nodup) (hfresh : ∀ t ∈ ts, (id, t) ∉ acc) :
    insertPairs id noteIds tagNames ts acc =
      (acc ++ ts.map (fun t => (id, t)), true) := by
  induction ts generalizing acc with
  | nil => simp [insertPairs]
  | cons t rest ih =>
    rw [insertPairs, if_neg]
    · rw [ih (fun t' ht' => htags t' (List.mem_cons_of_mem t ht'))
        (List.Nodup.of_cons hnodup)]
      · simp
      · intro t' ht'
        simp only [List.mem_append, List.mem_singleton, not_or]
        refine ⟨hfresh t' (List.mem_cons_of_mem t ht'), ?_⟩
        intro hpair
        have : t' = t := congrArg Prod.snd hpair
        exact (List.nodup_cons.1 hnodup).1 (this ▸ ht')
    · push_neg
      exact ⟨hfresh t (List.mem_cons_self t rest), hid,
        htags t (List.mem_cons_self t rest)⟩

/-! ### Characterizing `save_note_write` -/

/-- The state after the write sequence is independent of whether the
association inserts all succeeded. -/
theorem save_note_write_snd (note : Note) (db : DB) :
    (save_note_write note db).2 =
      { db with
          notes := upsertNotesTable note db,
          fts := upsertFtsTable note db,
          tags := upsertTagsDefault note.updated_at note.tags db.tags,
          note_tags := (noteTagsIns note db).1 } := by
  rw [save_note_write]
  split <;> rfl

/-- The result of the write sequence is the confirmation exactly when
every association insert succeeded. -/
theorem save_note_write_fst (note : Note) (db : DB) :
    (save_note_write note db).1 =
      if (noteTagsIns note db).2 then
        Outcome.ok ("Note saved: " ++ note.id)
      else Outcome.err .constraintViolation := by
  rw [save_note_write]
  split <;> rfl

/-- Looking the note id up after the upsert statement yields the
upserted row. -/
theorem find?_upsertNotesTable (note : Note) (db : DB) :
    (upsertNotesTable note db).find? (fun r => decide (r.id = note.id)) =
      some (upsertedNoteRow note db) := by
  unfold upsertNotesTable upsertedNoteRow
  cases hfind : findNote db note.id with
  | none =>
    simp only
    rw [find?_append_none hfind]
    simp [List.find?, rowOfNote]
  | some old =>
    simp only
    rw [find?_map_pres _ _ (fun r => ?_) db.notes]
    · unfold findNote at hfind
      rw [hfind]
      simp only [Option.map_some']
      have : old.id = note.id := by
        have := List.find?_some hfind
        simpa using this
      simp [this]
    · by_cases hr : r.id = note.id
      · simp [hr, conflictUpdateNote, rowOfNote]
      · simp [hr]

/-- After the write sequence, looking the note id up in the notes table
yields the upserted row. -/
theorem save_note_write_findNote (note : Note) (db : DB) :
    findNote (save_note_write note db).2 note.id =
      some (upsertedNoteRow note db) := by
  rw [save_note_write_snd]
  exact find?_upsertNotesTable note db

/-- The number of note rows is unchanged when the id already existed. -/
theorem save_note_write_length (note : Note) (db : DB) {old : NoteRow}
    (h : findNote db note.id = some old) :
    (save_note_write note db).2.notes.length = db.notes.length := by
  rw [save_note_write_snd]
  show (upsertNotesTable note db).length = _
  rw [upsertNotesTable, h]
  exact db.notes.length_map _

/-- When every association insert succeeded, the tag names associated
with the note id afterwards are exactly the note's tag list. -/
theorem tagsFor_write (note : Note) (db : DB)
    (h : (noteTagsIns note db).2 = true) :
    tagsFor (save_note_write note db).2 note.id = note.tags := by
  have hsplit : noteTagsIns note db = ((noteTagsIns note db).1, true) := by
    rw [← h]
  have h1 : (noteTagsIns note db).1 =
      db.note_tags.filter (fun p => decide (p.1 ≠ note.id)) ++
        note.tags.map (fun t => (note.id, t)) :=
    insertPairs_ok hsplit
  rw [save_note_write_snd]
  show ((noteTagsIns note db).1.filter
    (fun p => decide (p.1 = note.id))).map (·.2) = note.tags
  rw [h1, List.filter_append]
  have hkept : (db.note_tags.filter
      (fun p => decide (p.1 ≠ note.id))).filter
        (fun p => decide (p.1 = note.id)) = [] := by
    rw [List.filter_eq_nil_iff]
    intro p hp
    have := (List.mem_filter.1 hp).2
    simp only [decide_eq_true_eq] at this ⊢
    exact this
  rw [hkept, List.nil_append, List.filter_map]
  have : (fun p : String × String => decide (p.1 = note.id)) ∘
      (fun t => (note.id, t)) = fun _ => true := by
    funext t; simp
  rw [this, List.filter_true, List.map_map]
  simp

/-! ### Dispatch lemmas for `save_note` / `save_folder` -/

/-- An `Ok` return of `save_note` always comes from the write sequence
(it is past the panic and the guard). -/
theorem save_note_ok_elim {note : Note} {db db' : DB} {msg : String}
    (h : save_note note db = (.ok msg, db')) :
    save_note_write note db = (.ok msg, db') := by
  rw [save_note] at h
  split at h
  · simp at h
  · split at h
    · split at h
      · split at h
        · simp at h
        · exact h
      · exact h
    · exact h

/-- The tags table after `save_note` is either untouched (panic or
guard rejection) or the result of the implicit upserts. -/
theorem save_note_tags_cases (note : Note) (db : DB) :
    (save_note note db).2.tags = db.tags ∨
      (save_note note db).2.tags =
        upsertTagsDefault note.updated_at note.tags db.tags := by
  rw [save_note]
  split
  · exact .inl rfl
  · split
    · split
      · split
        · exact .inl rfl
        · rw [save_note_write_snd]; exact .inr rfl
      · rw [save_note_write_snd]; exact .inr rfl
    · rw [save_note_write_snd]; exact .inr rfl

/-- The tags table after `save_folder` is either untouched (panic or
parent foreign-key failure) or the result of the implicit upserts. -/
theorem save_folder_tags_cases (folder : Folder) (db : DB) :
    (save_folder folder db).2.tags = db.tags ∨
      (save_folder folder db).2.tags =
        upsertTagsDefault folder.updated_at folder.tags db.tags := by
  rw [save_folder]
  split
  · exact .inl rfl
  · split
    · split
      · exact .inr rfl
      · exact .inr rfl
    · exact .inl rfl

/-- The upserted notes table always carries the note's id. -/
theorem mem_upsertNotesTable_id (note : Note) (db : DB) :
    note.id ∈ (upsertNotesTable note db).map (·.id) := by
  unfold upsertNotesTable
  cases hfind : findNote db note.id with
  | none =>
    simp only [List.map_append, List.mem_append]
    exact .inr (by simp [rowOfNote])
  | some old =>
    have hmem : old ∈ db.notes := List.mem_of_find?_eq_some hfind
    have hid : old.id = note.id := by
      have := List.find?_some hfind
      simpa using this
    simp only
    have hmapped :
        (if old.id = note.id then conflictUpdateNote old note else old) ∈
          db.notes.map (fun r =>
            if r.id = note.id then conflictUpdateNote r note else r) :=
      List.mem_map_of_mem _ hmem
    rw [if_pos hid] at hmapped
    refine List.mem_map.2 ⟨conflictUpdateNote old note, hmapped, ?_⟩
    simp [conflictUpdateNote, rowOfNote, hid]

/-- With a duplicate-free tag list, every association insert of
`save_note` succeeds: the id foreign key holds by the row upsert, the
tag foreign keys by the implicit tag upserts, and no inserted pair
pre-exists because the old rows for the id were just deleted. -/
theorem noteTagsIns_succeeds (note : Note) (db : DB)
    (hnodup : note.tags.Nodup) : (noteTagsIns note db).2 = true := by
  unfold noteTagsIns
  rw [insertPairs_succeeds (mem_upsertNotesTable_id note db)
    (fun t ht => upsertTagsDefault_name_mem ht) hnodup ?_]
  intro t _ hmem
  have := (List.mem_filter.1 hmem).2
  simp at this

/-- Past the panic check, when the stored content (if any) is within the
threshold, `save_note` runs the write sequence. -/
theorem save_note_no_guard (note : Note) (db : DB)
    (hp : ¬ save_note_panics note)
    (hguard : ∀ r, findNote db note.id = some r →
      r.content.length ≤ 200) :
    save_note note db = save_note_write note db := by
  rw [save_note, if_neg hp]
  split
  · split
    · next r hr => rw [if_neg (Nat.not_lt.2 (hguard r hr))]
    · rfl
  · rfl

/-- An `Ok` return of the write sequence means every association insert
succeeded. -/
theorem save_note_write_ok_ins {note : Note} {db db' : DB} {msg : String}
    (w : save_note_write note db = (.ok msg, db')) :
    (noteTagsIns note db).2 = true := by
  have hfst := congrArg Prod.fst w
  rw [save_note_write_fst] at hfst
  by_cases hi : (noteTagsIns note db).2 = true
  · exact hi
  · rw [if_neg hi] at hfst
    simp at hfst

/-- The upserted row always stores the incoming content. -/
theorem upsertedNoteRow_content (note : Note) (db : DB) :
    (upsertedNoteRow note db).content = note.content := by
  unfold upsertedNoteRow
  cases findNote db note.id <;>
    simp [conflictUpdateNote, rowOfNote]

/-- Reassembling the upserted row with the note's tags gives the note
back, except that `created_at` keeps the prior row's value when the id
already existed. -/
theorem noteOfRow_upserted (note : Note) (db : DB) :
    noteOfRow (upsertedNoteRow note db) note.tags =
      { note with created_at :=
          match findNote db note.id with
          | some old => old.created_at
          | none => note.created_at } := by
  unfold upsertedNoteRow
  cases hfind : findNote db note.id with
  | none => rfl
  | some old =>
    have hid : old.id = note.id := by
      have := List.find?_some hfind
      simpa using this
    simp [noteOfRow, conflictUpdateNote, rowOfNote, hid]

/-- A byte offset beyond the string's byte length is never a character
boundary. -/
theorem not_boundary_of_len_lt {s : String} {n : Nat}
    (h : utf8Len s < n) : n ∉ byteBoundaries s := by
  intro hmem
  have hle : n ≤ utf8Len s := mem_boundariesAux_le hmem
  omega

/-! ## Claim C1 — the boot-state guard rejects and leaves the state
unchanged -/

/-- **C1 counterexample.** As stated, the claim quantifies over every
note with boot-state content whose id has a long stored row.  For a note
whose id is only 2 bytes, `save_note` panics on the debug-log slice
`&note.id[..20]` before the guard runs, so it does not return the
guarded-overwrite error. -/
theorem c1_counterexample :
    save_note shortIdNote dbLongShortId = (Outcome.panic, dbLongShortId) :=
  rfl

/-- **C1 (amended).** For every note whose content is exactly `""`,
`"\"\""`, or the empty-object literal, provided the debug-log slices do
not panic (byte 20 is a character boundary of the id and byte 30 does
not split a character of a long title), if a row with the same id exists
and its stored content length exceeds 200, then `save_note` returns the
guarded-overwrite error and the entire database state is unchanged. -/
theorem c1_guard_rejects (note : Note) (db : DB) (r : NoteRow)
    (hp : ¬ save_note_panics note)
    (hboot : is_pure_boot_state note.content = true)
    (hfind : findNote db note.id = some r)
    (hlen : 200 < r.content.length) :
    save_note note db =
      (.err (.guardedOverwrite note.title r.content.length), db) := by
  rw [save_note, if_neg hp, if_pos hboot, hfind]
  exact if_pos hlen

set_option maxRecDepth 40000 in
/-- **C1 witness**: the amended theorem applied to a concrete
boot-state note over a stored 201-character row. -/
theorem c1_guard_rejects_witness :
    ¬ save_note_panics bootNote ∧
    is_pure_boot_state bootNote.content = true ∧
    findNote dbLong bootNote.id =
      some (rowOfNote (mkNote id20 "T" longContent [] "c0" "u0")) ∧
    save_note bootNote dbLong =
      (.err (.guardedOverwrite "T" 201), dbLong) :=
  ⟨by decide, rfl, rfl,
   c1_guard_rejects bootNote dbLong _ (by decide) rfl rfl (by decide)⟩

/-! ## Claim C2 — boot-state saves over absent or short rows succeed -/

/-- **C2 counterexample.** The claim quantifies over every boot-state
note without a long stored row; with a 2-byte id and no stored row,
`save_note` panics on the debug-log slice instead of succeeding. -/
theorem c2_counterexample :
    (save_note shortIdNote DB.empty).1 = Outcome.panic :=
  rfl

/-- **C2 (amended).** For every note with boot-state content, provided
the debug-log slices do not panic and the tag list has no duplicates
(duplicates violate the `note_tags` primary key), if no row with the
note's id exists, or the stored content length is at most 200, then
`save_note` writes the row and returns the confirmation. -/
theorem c2_boot_save_succeeds (note : Note) (db : DB)
    (_hboot : is_pure_boot_state note.content = true)
    (hp : ¬ save_note_panics note)
    (hnodup : note.tags.Nodup)
    (hsmall : ∀ r, findNote db note.id = some r →
      r.content.length ≤ 200) :
    (save_note note db).1 = .ok ("Note saved: " ++ note.id) ∧
    ∃ r, findNote (save_note note db).2 note.id = some r ∧
      r.content = note.content := by
  rw [save_note_no_guard note db hp hsmall]
  refine ⟨?_, upsertedNoteRow note db, save_note_write_findNote note db,
    upsertedNoteRow_content note db⟩
  rw [save_note_write_fst, if_pos (noteTagsIns_succeeds note db hnodup)]

/-- **C2 witness**: the amended theorem applied to a concrete boot-state
note over the empty database. -/
theorem c2_boot_save_succeeds_witness :
    is_pure_boot_state bootNote.content = true ∧
    ¬ save_note_panics bootNote ∧
    bootNote.tags.Nodup ∧
    ((save_note bootNote DB.empty).1 = .ok ("Note saved: " ++ id20) ∧
     ∃ r, findNote (save_note bootNote DB.empty).2 bootNote.id = some r ∧
       r.content = bootNote.content) :=
  ⟨rfl, by decide, by decide,
   c2_boot_save_succeeds bootNote DB.empty rfl (by decide) (by decide)
     (by intro r hr; cases hr)⟩

/-! ## Claim C3 — the debug-log slice panics on short ids -/

/-- **C3.** For every note whose id is shorter than 20 bytes (and
likewise when byte 30 splits a multi-byte character of a title longer
than 30 bytes), `save_note` panics on the debug-logging string slice
instead of returning a `Result`, and the database state is untouched:
the guard check and every write lie beyond the `println!`. -/
theorem c3_short_id_panics (note : Note) (db : DB)
    (h : utf8Len note.id < 20 ∨
      (30 < utf8Len note.title ∧ 30 ∉ byteBoundaries note.title)) :
    save_note note db = (.panic, db) := by
  have hp : save_note_panics note := by
    rcases h with h | h
    · exact .inl (not_boundary_of_len_lt h)
    · exact .inr h
  rw [save_note, if_pos hp]

/-- **C3 witness**: a 2-byte id panics over the empty database. -/
theorem c3_short_id_panics_witness :
    utf8Len shortIdNote.id < 20 ∧
    save_note shortIdNote DB.empty = (.panic, DB.empty) :=
  ⟨by decide, c3_short_id_panics shortIdNote DB.empty (.inl (by decide))⟩

/-! ## Claim C4 — load after save returns the saved note -/

/-- **C4 counterexample.** As stated, the loaded note should equal the
saved one in every field; but the upsert's `ON CONFLICT` clause does not
overwrite `created_at`, so resaving over an existing row keeps the old
row's `created_at` (`"2020"`), not the saved note's (`"2021"`). -/
theorem c4_counterexample :
    (save_note resaveNote dbOld).1 = Outcome.ok ("Note saved: " ++ id20) ∧
    (load_note resaveNote.id (save_note resaveNote dbOld).2).1 =
      Outcome.ok { resaveNote with created_at := "2020" } ∧
    resaveNote.created_at ≠ "2020" :=
  ⟨rfl, rfl, by decide⟩

/-- **C4 (amended).** For every note with non-empty, non-boot-state
content, `load_note` immediately after a successful `save_note` on an
initialized database returns a note equal to the saved one in every
field — except that `created_at` keeps the previously stored row's value
when the id already existed — with the tags list matching the saved tag
set as an unordered set. -/
theorem c4_save_load_roundtrip (note : Note) (db db' : DB) (msg : String)
    (_hboot : is_pure_boot_state note.content = false)
    (hsave : save_note note db = (.ok msg, db')) :
    ∃ loaded, load_note note.id db' = (.ok loaded, db') ∧
      loaded = { note with created_at :=
        (match findNote db note.id with
         | some old => old.created_at
         | none => note.created_at) } ∧
      (∀ t, t ∈ loaded.tags ↔ t ∈ note.tags) := by
  have w := save_note_ok_elim hsave
  have hdb' : db' = (save_note_write note db).2 :=
    (congrArg Prod.snd w).symm
  subst hdb'
  have hins : (noteTagsIns note db).2 = true := save_note_write_ok_ins w
  have hfind := save_note_write_findNote note db
  have htags := tagsFor_write note db hins
  refine ⟨noteOfRow (upsertedNoteRow note db) note.tags, ?_,
    noteOfRow_upserted note db, fun t => Iff.rfl⟩
  rw [load_note, hfind, htags]

/-- **C4 witness**: a fresh two-tag note round-trips through the empty
database. -/
theorem c4_save_load_roundtrip_witness :
    is_pure_boot_state roundTripNote.content = false ∧
    save_note roundTripNote DB.empty =
      (.ok ("Note saved: " ++ id20), dbRoundTrip) ∧
    (∃ loaded, load_note roundTripNote.id dbRoundTrip =
        (.ok loaded, dbRoundTrip) ∧
      loaded = { roundTripNote with created_at :=
        (match findNote DB.empty roundTripNote.id with
         | some old => old.created_at
         | none => roundTripNote.created_at) } ∧
      (∀ t, t ∈ loaded.tags ↔ t ∈ roundTripNote.tags)) :=
  ⟨rfl, rfl,
   c4_save_load_roundtrip roundTripNote DB.empty dbRoundTrip _ rfl rfl⟩

/-! ## Claim C5 — resaving with a new tag set replaces the associations -/

set_option maxRecDepth 40000 in
/-- **C5 counterexample.** As stated, the claim quantifies over any two
consecutive saves; when the second save is rejected (here by the
boot-state guard, the first save having stored 201 characters), the
association rows keep the first tag set `{a, b}` instead of becoming
`{b, c}`. -/
theorem c5_counterexample :
    (save_note retagBlockedA DB.empty).1 =
      Outcome.ok ("Note saved: " ++ id20) ∧
    (save_note retagBlockedB (save_note retagBlockedA DB.empty).2).1 =
      Outcome.err (.guardedOverwrite "T" 201) ∧
    tagsFor (save_note retagBlockedB
      (save_note retagBlockedA DB.empty).2).2 id20 = ["a", "b"] :=
  ⟨rfl, rfl, rfl⟩

/-- **C5 (amended).** For every note id, after a `save_note` with tag
set `{A, B}` followed by a `save_note` of the same id with tag set
`{B, C}`, provided both saves are accepted (return the confirmation),
the `note_tags` association rows for that id are exactly `{B, C}`: the
old association `A` is removed and no duplicate pairs exist. -/
theorem c5_retag_exact (n1 n2 : Note) (db db1 db2 : DB)
    (id A B C m1 m2 : String)
    (_hid1 : n1.id = id) (hid2 : n2.id = id)
    (_ht1 : n1.tags = [A, B]) (ht2 : n2.tags = [B, C])
    (hAB : A ≠ B) (hBC : B ≠ C) (hAC : A ≠ C)
    (_hs1 : save_note n1 db = (.ok m1, db1))
    (hs2 : save_note n2 db1 = (.ok m2, db2)) :
    tagsFor db2 id = [B, C] ∧ (tagsFor db2 id).Nodup ∧
      A ∉ tagsFor db2 id := by
  have w := save_note_ok_elim hs2
  have hdb2 : db2 = (save_note_write n2 db1).2 :=
    (congrArg Prod.snd w).symm
  subst hdb2
  have hins := save_note_write_ok_ins w
  have htags := tagsFor_write n2 db1 hins
  rw [hid2] at htags
  rw [htags, ht2]
  refine ⟨rfl, ?_, ?_⟩
  · simp [hBC]
  · simp [hAB, hAC]

/-- **C5 witness**: two accepted saves retag a note from `{a, b}` to
`{b, c}`. -/
theorem c5_retag_exact_witness :
    save_note retagOkA DB.empty = (.ok ("Note saved: " ++ id20), dbRetag1) ∧
    save_note retagOkB dbRetag1 = (.ok ("Note saved: " ++ id20), dbRetag2) ∧
    (tagsFor dbRetag2 id20 = ["b", "c"] ∧
      (tagsFor dbRetag2 id20).Nodup ∧ "a" ∉ tagsFor dbRetag2 id20) :=
  ⟨rfl, rfl,
   c5_retag_exact retagOkA retagOkB DB.empty dbRetag1 dbRetag2 id20
     "a" "b" "c" _ _ rfl rfl rfl rfl (by decide) (by decide) (by decide)
     rfl rfl⟩

/-! ## Claim C6 — an accepted conflicting save updates in place -/

/-- **C6.** For every note whose id already exists, an accepted
`save_note` updates the existing row in place: the stored `id` and
`created_at` keep their prior values while every other column is
overwritten with the incoming note's values, and the number of note rows
does not change. -/
theorem c6_upsert_in_place (note : Note) (db db' : DB) (old : NoteRow)
    (msg : String)
    (hfind : findNote db note.id = some old)
    (hsave : save_note note db = (.ok msg, db')) :
    findNote db' note.id = some
      ⟨note.id, note.title, note.description, note.description_visible,
       note.emoji, note.content, note.tags_visible, note.is_favorite,
       note.folder_id, note.daily_note_date, old.created_at,
       note.updated_at, note.deleted_at⟩ ∧
    db'.notes.length = db.notes.length := by
  have w := save_note_ok_elim hsave
  have hdb' : db' = (save_note_write note db).2 :=
    (congrArg Prod.snd w).symm
  subst hdb'
  refine ⟨?_, save_note_write_length note db hfind⟩
  rw [save_note_write_findNote note db]
  unfold upsertedNoteRow
  rw [hfind]
  have hid : old.id = note.id := by
    have := List.find?_some hfind
    simpa using this
  simp [conflictUpdateNote, rowOfNote, hid]

/-- **C6 witness**: resaving `resaveNote` over the older stored row
keeps `id` and `created_at` and overwrites the rest. -/
theorem c6_upsert_in_place_witness :
    findNote dbOld resaveNote.id =
      some (rowOfNote (mkNote id20 "T" "old" [] "2020" "2020")) ∧
    save_note resaveNote dbOld = (.ok ("Note saved: " ++ id20), dbResaved) ∧
    (findNote dbResaved resaveNote.id = some
      ⟨id20, "T", "", true, none, "hello", true, false, none, none,
       "2020", "2021", none⟩ ∧
     dbResaved.notes.length = dbOld.notes.length) :=
  ⟨rfl, rfl, c6_upsert_in_place resaveNote dbOld dbResaved _ _ rfl rfl⟩

/-! ## Claim C7 — implicit tag upserts never overwrite existing tags -/

/-- **C7.** For every tag name in the tag list of a note or folder being
saved: if a tag row with that name already exists, the implicit upsert
of `save_note` / `save_folder` leaves that row untouched; the default
metadata row is written only when no row with the name existed. -/
theorem c7_implicit_tag_upsert (note : Note) (folder : Folder) (db : DB)
    (nm : String) :
    (∀ old, findTagRow db.tags nm = some old →
      findTagRow (save_note note db).2.tags nm = some old) ∧
    (findTagRow db.tags nm = none →
      findTagRow (save_note note db).2.tags nm = none ∨
      findTagRow (save_note note db).2.tags nm =
        some (defaultTagRow nm note.updated_at)) ∧
    (∀ old, findTagRow db.tags nm = some old →
      findTagRow (save_folder folder db).2.tags nm = some old) ∧
    (findTagRow db.tags nm = none →
      findTagRow (save_folder folder db).2.tags nm = none ∨
      findTagRow (save_folder folder db).2.tags nm =
        some (defaultTagRow nm folder.updated_at)) := by
  refine ⟨?_, ?_, ?_, ?_⟩
  · intro old h
    rcases save_note_tags_cases note db with hc | hc
    · rw [hc]; exact h
    · rw [hc]; exact upsertTagsDefault_preserves h
  · intro h
    rcases save_note_tags_cases note db with hc | hc
    · rw [hc]; exact .inl h
    · rw [hc]; exact upsertTagsDefault_absent h
  · intro old h
    rcases save_folder_tags_cases folder db with hc | hc
    · rw [hc]; exact h
    · rw [hc]; exact upsertTagsDefault_preserves h
  · intro h
    rcases save_folder_tags_cases folder db with hc | hc
    · rw [hc]; exact .inl h
    · rw [hc]; exact upsertTagsDefault_absent h

/-- **C7 witness**: saving a note and a folder that mention the
richly-annotated tag `"x"` leaves its row intact, while the fresh name
`"y"` at most acquires the default row. -/
theorem c7_implicit_tag_upsert_witness :
    findTagRow dbRichTag.tags "x" = some richTag ∧
    findTagRow (save_note taggedNote dbRichTag).2.tags "x" =
      some richTag ∧
    findTagRow dbRichTag.tags "y" = none ∧
    (findTagRow (save_note taggedNote dbRichTag).2.tags "y" = none ∨
     findTagRow (save_note taggedNote dbRichTag).2.tags "y" =
       some (defaultTagRow "y" taggedNote.updated_at)) ∧
    findTagRow (save_folder taggedFolder dbRichTag).2.tags "x" =
      some richTag :=
  ⟨rfl,
   (c7_implicit_tag_upsert taggedNote taggedFolder dbRichTag "x").1
     richTag rfl,
   rfl,
   (c7_implicit_tag_upsert taggedNote taggedFolder dbRichTag "y").2.1 rfl,
   (c7_implicit_tag_upsert taggedNote taggedFolder dbRichTag "x").2.2.1
     richTag rfl⟩

/-! ## Claim C8 — search returns only live matching notes, ranked,
capped at 50 -/

/-- **C8.** For every query, `search_notes` returns only notes whose
full-text index entry matches the query, never includes a note whose
`deleted_at` is non-null, orders the results by the index's relevance
rank (ascending, as `ORDER BY rank` does), and returns at most 50
notes.  FTS5 matching and ranking are abstracted as the `matchP` and
`rank` parameters. -/
theorem c8_search_notes (matchP : String → FtsRow → Bool)
    (rank : FtsRow → Int) (q : String) (db : DB) :
    (∀ n ∈ search_notes_run matchP rank q db, n.deleted_at = none ∧
      ∃ f ∈ db.fts, f.note_id = n.id ∧ matchP q f = true) ∧
    (search_notes_run matchP rank q db).length ≤ 50 ∧
    List.Pairwise (fun a b => rank a.2 ≤ rank b.2)
      (searchRows matchP rank q db) ∧
    search_notes_run matchP rank q db =
      (searchRows matchP rank q db).map
        (fun p => noteOfRow p.1 (tagsFor db p.1.id)) := by
  refine ⟨?_, ?_, ?_, rfl⟩
  · intro n hn
    obtain ⟨p, hp, rfl⟩ := List.mem_map.1 hn
    have hp1 : p ∈ ((joinFts db).filter
        (fun p => matchP q p.2 && p.1.deleted_at.isNone)).insertionSort
          (fun a b => rank a.2 ≤ rank b.2) :=
      (List.take_sublist _ _).subset hp
    have hp2 : p ∈ (joinFts db).filter
        (fun p => matchP q p.2 && p.1.deleted_at.isNone) :=
      (List.perm_insertionSort _ _).subset hp1
    have hcond := (List.mem_filter.1 hp2).2
    have hjoin := (List.mem_filter.1 hp2).1
    rw [Bool.and_eq_true] at hcond
    obtain ⟨nrow, _, hmem2⟩ := List.mem_flatMap.1 hjoin
    obtain ⟨f, hf, heq⟩ := List.mem_map.1 hmem2
    have hfts := (List.mem_filter.1 hf).1
    have hfid := (List.mem_filter.1 hf).2
    simp only [decide_eq_true_eq] at hfid
    refine ⟨Option.isNone_iff_eq_none.1 hcond.2, p.2, ?_, ?_, hcond.1⟩
    · rw [← heq]; exact hfts
    · show p.2.note_id = p.1.id
      rw [← heq]; exact hfid
  · show ((searchRows matchP rank q db).map _).length ≤ 50
    rw [List.length_map, searchRows, List.length_take]
    omega
  · have hs : List.Sorted (fun a b : NoteRow × FtsRow =>
        rank a.2 ≤ rank b.2)
        (((joinFts db).filter
          (fun p => matchP q p.2 && p.1.deleted_at.isNone)).insertionSort
            (fun a b => rank a.2 ≤ rank b.2)) := by
      haveI : IsTotal (NoteRow × FtsRow)
          (fun a b => rank a.2 ≤ rank b.2) :=
        ⟨fun a b => Int.le_total _ _⟩
      haveI : IsTrans (NoteRow × FtsRow)
          (fun a b => rank a.2 ≤ rank b.2) :=
        ⟨fun _ _ _ hab hbc => le_trans hab hbc⟩
      exact List.sorted_insertionSort _ _
    exact List.Pairwise.sublist (List.take_sublist _ _) hs

/-- **C8 witness**: under the everything-matches matcher and constant
rank, searching a one-note database returns that note, live and
matched. -/
theorem c8_search_notes_witness :
    noteOfRow (rowOfNote (mkNote id20 "T" "hello world" [] "c0" "u0")) []
      ∈ search_notes_run (fun _ _ => true) (fun _ => 0) "hello" dbSearch ∧
    (noteOfRow (rowOfNote (mkNote id20 "T" "hello world" [] "c0" "u0"))
        []).deleted_at = none ∧
    ∃ f ∈ dbSearch.fts,
      f.note_id = (noteOfRow
        (rowOfNote (mkNote id20 "T" "hello world" [] "c0" "u0")) []).id ∧
      (fun (_ : String) (_ : FtsRow) => true) "hello" f = true :=
  ⟨by decide,
   (c8_search_notes (fun _ _ => true) (fun _ => 0) "hello" dbSearch).1
     _ (by decide)⟩

/-! ## Claim C9 — every operation fails before initialization -/

/-- **C9.** For every storage operation other than initialization,
invoking it while the connection state is absent returns the
not-initialized error immediately and leaves the state absent. -/
theorem c9_not_initialized (note : Note) (folder : Folder) (tag : Tag)
    (matchP : String → FtsRow → Bool) (rank : FtsRow → Int)
    (q noteId tagName folderId key value now : String) :
    save_note_cmd note none = (.err .notInitialized, none) ∧
    load_note_cmd noteId none = (.err .notInitialized, none) ∧
    load_all_notes_cmd none = (.err .notInitialized, none) ∧
    search_notes_cmd matchP rank q none = (.err .notInitialized, none) ∧
    save_folder_cmd folder none = (.err .notInitialized, none) ∧
    load_all_folders_cmd none = (.err .notInitialized, none) ∧
    save_tag_cmd tag none = (.err .notInitialized, none) ∧
    load_all_tags_cmd none = (.err .notInitialized, none) ∧
    delete_tag_cmd tagName none = (.err .notInitialized, none) ∧
    delete_note_permanently_cmd noteId none =
      (.err .notInitialized, none) ∧
    delete_folder_permanently_cmd folderId none =
      (.err .notInitialized, none) ∧
    cleanup_database_cmd none = (.err .notInitialized, none) ∧
    save_ui_state_cmd now key value none = (.err .notInitialized, none) ∧
    load_ui_state_cmd key none = (.err .notInitialized, none) ∧
    load_all_ui_state_cmd none = (.err .notInitialized, none) :=
  ⟨rfl, rfl, rfl, rfl, rfl, rfl, rfl, rfl, rfl, rfl, rfl, rfl, rfl, rfl,
   rfl⟩

/-! ## Claim C10 — missing UI keys load as an absent value, not an
error -/

/-- **C10.** For every key not present in the settings table,
`load_ui_state` returns a successful absent value; for every present
key it returns the stored value. -/
theorem c10_load_ui_state (key : String) (db : DB) :
    (findSetting db key = none →
      load_ui_state key db = (.ok none, db)) ∧
    (∀ s, findSetting db key = some s →
      load_ui_state key db = (.ok (some s.value), db)) := by
  constructor
  · intro h; simp [load_ui_state, h]
  · intro s h; simp [load_ui_state, h]

/-- **C10 witness**: a missing key loads as `Ok(None)`, a present key
as its stored value. -/
theorem c10_load_ui_state_witness :
    findSetting dbUi "missing.key" = none ∧
    load_ui_state "missing.key" dbUi = (.ok none, dbUi) ∧
    findSetting dbUi "ui.theme" = some ⟨"ui.theme", "dark", "t0"⟩ ∧
    load_ui_state "ui.theme" dbUi = (.ok (some "dark"), dbUi) :=
  ⟨rfl, (c10_load_ui_state "missing.key" dbUi).1 rfl, rfl,
   (c10_load_ui_state "ui.theme" dbUi).2 ⟨"ui.theme", "dark", "t0"⟩ rfl⟩

end Clutter
